import Mathlib

/-!
Shallow embedding of the Riva Flask glue layer (`app.py`, `riva_client.py`).

The repository exposes NVIDIA Riva ASR/TTS gRPC services over HTTP.  The
handlers keep an in-memory dictionary `active_sessions` mapping generated
session ids to a per-session record (two queues, a results list and some
flags).  We embed:

  * `queue.Queue` objects as Lean lists (FIFO order; `put` appends, a drain
    removes from the front);
  * the `active_sessions` Python dict as an insertion-ordered association
    list `AppState`;
  * bytes payloads as `List Nat`;
  * request handlers as pure functions from the state and the request data
    to the new state, the HTTP response and a list of side effects
    (spawned threads);
  * Python exceptions as an explicit `Except` layer where the source can
    raise, and Python module-level name resolution through the list of
    names actually bound at module scope of `app.py` (unbound names raise
    `NameError` at request time).

The vendor gRPC stubs (`StreamingRecognize` / `Synthesize`) are modelled as
oracle functions passed in as parameters, returning either a payload or a
raised exception.
-/

/-- Bytes payloads (`request.data`, audio buffers) as lists of byte values. -/
abbrev Bytes := List Nat

/-- A Python exception value.  `nameError n` models `NameError: name n is
not defined`; `other` covers any other `Exception`. -/
inductive PyExc where
  | nameError (n : String)
  | other (msg : String)
deriving Repr, DecidableEq

/-- `str(e)` for an exception, used when handlers format error messages. -/
def excMessage : PyExc → String
  | .nameError n => "name " ++ n ++ " is not defined"
  | .other m => m

/-- A JSON value, the payload of `jsonify`. -/
inductive JVal where
  | str (s : String)
  | num (n : Nat)
  | bool (b : Bool)
  | arr (xs : List JVal)
  | obj (fields : List (String × JVal))

/-- Field access in a JSON object (`body["k"]`). -/
def jsonField : JVal → String → Option JVal
  | .obj fields, k => (fields.find? (fun p => p.1 == k)).map (fun p => p.2)
  | _, _ => none

/-- One transcription result dict produced by `RivaClient`: the handlers
only ever read its `transcript` and `is_final` entries (the worker also
attaches `timestamp`/`error` keys, which no handler reads, so they are
omitted from the embedding). -/
structure RivaResult where
  transcript : String
  is_final : Bool
deriving Repr, DecidableEq

/-- One entry of `active_sessions`, as built by `/stream_start`
(`app.py` lines 239-246 and 269).  The `thread` key is attached only after
the worker thread is started, which we model with an `Option` that is
`none` while the key is absent. -/
structure Session where
  created_at : Nat
  audio_queue : List (Option Bytes)
  results_queue : List RivaResult
  results : List RivaResult
  complete : Bool
  sample_rate : Nat
  thread : Option Nat
deriving Repr, DecidableEq

/-- The `active_sessions` dict: insertion-ordered association list. -/
abbrev AppState := List (String × Session)

/-- `sid in active_sessions` / `active_sessions[sid]` (first match). -/
def lookupSession : AppState → String → Option Session
  | [], _ => none
  | (k, v) :: rest, sid => if k = sid then some v else lookupSession rest sid

/-- In-place value update `active_sessions[sid] = s` for an existing key. -/
def updateSession : AppState → String → Session → AppState
  | [], _, _ => []
  | (k, v) :: rest, sid, s =>
      if k = sid then (k, s) :: updateSession rest sid s
      else (k, v) :: updateSession rest sid s

/-- `del active_sessions[sid]`. -/
def removeSession : AppState → String → AppState
  | [], _ => []
  | (k, v) :: rest, sid =>
      if k = sid then removeSession rest sid
      else (k, v) :: removeSession rest sid

/-- Python dict assignment `active_sessions[sid] = s`: overwrite in place
when the key exists, append otherwise. -/
def insertSession (st : AppState) (sid : String) (s : Session) : AppState :=
  if (lookupSession st sid).isSome then updateSession st sid s
  else st ++ [(sid, s)]

/-- The kind of worker a handler hands to `threading.Thread`. -/
inductive ThreadKind where
  | sessionWorker (sid : String)
  | cleanupWorker (sid : String)
deriving Repr, DecidableEq

/-- An observable side effect of a request handler.  `spawnThread` records
a `threading.Thread(...).start()` together with the `daemon` flag;
`acquireLock` would record taking any `threading.Lock`-style primitive
(no handler in `app.py` ever performs one). -/
inductive Effect where
  | spawnThread (daemon : Bool) (k : ThreadKind)
  | acquireLock (nm : String)
deriving Repr, DecidableEq

/-- Whether an effect is the use of a synchronization primitive. -/
def Effect.isLock : Effect → Bool
  | .acquireLock _ => true
  | _ => false

/-- Result of a handler that may update the session dict. -/
structure HandlerOut where
  state : AppState
  status : Nat
  body : JVal
  effects : List Effect

/-- Draining loop over `results_queue` (`app.py` lines 293-297 and
328-341): every queued result is appended to `results`, in order. -/
def drainResults (s : Session) : Session :=
  { s with results := s.results ++ s.results_queue, results_queue := [] }

/-- `[r["transcript"] for r in results if r.get("is_final", False)]`. -/
def finalTranscripts (rs : List RivaResult) : List String :=
  (rs.filter (fun r => r.is_final)).map (fun r => r.transcript)

/-- `POST /stream_start` (`app.py` lines 226-271).  `sid` stands for the
freshly generated `str(uuid.uuid4())`, `now` for `time.time()`, `tid` for
the started thread object.  The entry is first stored without the
`thread` key, the daemon worker thread is started, then the `thread` key
is attached. -/
def stream_start (st : AppState) (sid : String) (now : Nat)
    (sampleRateArg : Option Nat) (tid : Nat) : HandlerOut :=
  let sample_rate := sampleRateArg.getD 16000
  let sess0 : Session :=
    { created_at := now, audio_queue := [], results_queue := [],
      results := [], complete := false, sample_rate := sample_rate,
      thread := none }
  let st1 := insertSession st sid sess0
  let st2 := updateSession st1 sid { sess0 with thread := some tid }
  { state := st2, status := 200,
    body := .obj [("session_id", .str sid)],
    effects := [.spawnThread true (.sessionWorker sid)] }

/-- `POST /stream_audio/<session_id>` (`app.py` lines 273-312).  An empty
body is result polling; a non-empty body is put on the audio queue.  Then
the results queue is drained into `results` and the latest transcription
is returned. -/
def stream_audio (st : AppState) (sid : String) (body : Bytes) : HandlerOut :=
  match lookupSession st sid with
  | none =>
      { state := st, status := 400,
        body := .obj [("error", .str "Invalid session ID")], effects := [] }
  | some s =>
      let is_polling := body = []
      let s1 := if is_polling then s
                else { s with audio_queue := s.audio_queue ++ [some body] }
      let s2 := drainResults s1
      let latest := finalTranscripts s2.results
      let latest := if latest = [] then
                      match s2.results.getLast? with
                      | some r => [r.transcript]
                      | none => []
                    else latest
      { state := updateSession st sid s2, status := 200,
        body := .obj
          [("transcription",
            .str (if latest = [] then "" else String.intercalate " " latest)),
           ("is_final", .bool (s2.results.any (fun r => r.is_final))),
           ("num_results", .num s2.results.length)],
        effects := [] }

/-- `time.sleep(60)` inside `cleanup_session` (`app.py` line 354). -/
def cleanupDelaySeconds : Nat := 60

/-- The body of the cleanup worker after its sleep (`app.py` lines
355-356): delete the entry if the session id is still present. -/
def cleanup_session (st : AppState) (sid : String) : AppState :=
  if (lookupSession st sid).isSome then removeSession st sid else st

/-- The `finally` block of the per-session worker thread (`app.py` lines
258-261): mark the session complete if it is still present. -/
def session_thread_finalize (st : AppState) (sid : String) : AppState :=
  match lookupSession st sid with
  | some s => updateSession st sid { s with complete := true }
  | none => st

/-- `POST /stream_stop/<session_id>` (`app.py` lines 314-360).  Puts the
`None` end-of-stream signal on the audio queue, drains any queued results,
marks the session complete, answers with the final transcription and
spawns the (non-daemon) cleanup thread. -/
def stream_stop (st : AppState) (sid : String) : HandlerOut :=
  match lookupSession st sid with
  | none =>
      { state := st, status := 400,
        body := .obj [("error", .str "Invalid session ID")], effects := [] }
  | some s =>
      let s1 := { s with audio_queue := s.audio_queue ++ [none] }
      let s2 := drainResults s1
      let s3 := { s2 with complete := true }
      let finals := finalTranscripts s3.results
      { state := updateSession st sid s3, status := 200,
        body := .obj
          [("final_transcription",
            .str (if finals = [] then "" else String.intercalate " " finals))],
        effects := [.spawnThread false (.cleanupWorker sid)] }

/-- Association lookup used for request dicts and the `VOICES` table
(`d.get(k)`). -/
def alookup {α : Type} : List (String × α) → String → Option α
  | [], _ => none
  | (k, v) :: rest, key => if k = key then some v else alookup rest key

/-- The names bound at module scope of `app.py`: the `from flask import`
and `import` statements (lines 1-10), the module-level assignments and the
`def`s.  Notably absent: `riva_client` (only `RivaClient` is imported from
it), `tts_available`, `wave`, `send_file` and `query_available_tts_voices`,
none of which is ever bound in `app.py`. -/
def appGlobalNames : List String :=
  ["Flask", "render_template", "request", "jsonify", "Response",
   "stream_with_context", "redirect", "url_for",
   "os", "tempfile", "uuid", "threading", "json", "time", "ssl", "queue",
   "RivaClient",
   "app", "SSL_CERT_PATHS", "SSL_KEY_PATHS", "SSL_CERT_FILE", "SSL_KEY_FILE",
   "RIVA_SERVER", "ASR_MODELS", "TTS_MODELS", "DEFAULT_ASR_MODEL",
   "DEFAULT_ASR_LANGUAGE", "riva_clients", "default_client",
   "active_sessions", "VOICE_NAME_MAP", "VOICES",
   "initialize_voices", "test_voice_configuration", "test_voices", "index",
   "get_models", "transcribe", "stream_start", "stream_audio", "stream_stop",
   "health_check", "ssl_check", "check_tts_available", "refresh_tts_voices",
   "get_tts_voices", "synthesize_speech", "get_tts_audio", "stream_tts",
   "check_ssl_config"]

/-- Resolution of a global name at request time inside an `app.py`
handler. -/
def nameDefined (names : List String) (n : String) : Bool := names.contains n

/-- A `SynthesizeSpeechRequest` as built by
`RivaClient.synthesize_speech` (`riva_client.py` lines 339-345): the
`encoding` field is the constant `LINEAR_PCM` and is omitted. -/
structure SynthReq where
  text : String
  language_code : String
  sample_rate_hz : Nat
  voice_name : String
deriving Repr, DecidableEq

/-- `RivaClient.synthesize_speech` (`riva_client.py` lines 310-372).
`tts_avail` is the module flag `self.tts_available`; `rpc` is the oracle
for `self.tts_client.Synthesize`, returning the response audio or
raising.  The embedding also returns the list of RPC requests issued, in
order.  The outer `Except` layer records exceptions that would escape to
the caller; every `raise` point of the source sits inside a
`try`/`except`, so the result is `.ok` on every path. -/
def RivaClient.synthesize_speech (tts_avail : Bool)
    (rpc : SynthReq → Except PyExc Bytes)
    (text language_code : String) (voice_name : Option String)
    (sample_rate_hz : Nat) :
    Except PyExc (Option Bytes) × List SynthReq :=
  if tts_avail = false then (.ok none, [])
  else
    -- if voice_name is None, use language code directly
    let vn := voice_name.getD language_code
    let req1 : SynthReq := ⟨text, language_code, sample_rate_hz, vn⟩
    match rpc req1 with
    | .ok audio => (.ok (some audio), [req1])
    | .error _ =>
        -- except branch: if the specified voice failed and differs from
        -- the language code, retry once with voice_name = language_code
        if vn ≠ language_code then
          let req2 : SynthReq := ⟨text, language_code, sample_rate_hz,
                                  language_code⟩
          match rpc req2 with
          | .ok audio => (.ok (some audio), [req1, req2])
          | .error _ => (.ok none, [req1, req2])
        else (.ok none, [req1])

/-- `RivaClient.transcribe_stream` (`riva_client.py` lines 165-219),
collected into a list: the request generator forwards the non-empty audio
chunks after the config request; the response iterator yields
transcript/is_final pairs, and a raised exception is caught and turned
into a single final error result. -/
def RivaClient.transcribe_stream
    (rpc : List Bytes → Except PyExc (List RivaResult))
    (chunks : List Bytes) : List RivaResult :=
  match rpc (chunks.filter (fun c => c ≠ [])) with
  | .ok rs => rs
  | .error e => [⟨"Error: " ++ excMessage e, true⟩]

/-- `POST /transcribe` (`app.py` lines 180-224).  `hasAudio` is whether
`"audio" in request.files`; `chunks` are the 4096-byte chunks of the saved
upload.  The loop body evaluates the global name `riva_client`, which
`app.py` never binds (line 10 imports only `RivaClient` from the module),
so with the real name environment the handler raises `NameError`; in an
environment that does bind it, the handler proxies the chunks to
`StreamingRecognize` and returns the joined final transcripts. -/
def transcribe (names : List String)
    (hasAudio : Bool) (rpc : List Bytes → Except PyExc (List RivaResult))
    (chunks : List Bytes) : Except PyExc (Nat × JVal) :=
  if hasAudio = false then
    .ok (400, .obj [("error", .str "No audio file uploaded")])
  else if nameDefined names "riva_client" = false then
    .error (.nameError "riva_client")
  else
    let rs := RivaClient.transcribe_stream rpc chunks
    let finals := finalTranscripts rs
    .ok (200, .obj
      [("transcription",
        .str (if finals = [] then "" else String.intercalate " " finals))])

/-- The `except` branch of `/tts/synthesize` (`app.py` lines 486-487):
`return jsonify({"error": f"TTS error: {str(e)}"}, 500)`.  Both arguments
are positional arguments of `jsonify`, which therefore serializes them as
a two-element JSON array and responds with its default status 200; the
500 is part of the body, not the HTTP status. -/
def tts_error_response (e : PyExc) : Nat × JVal :=
  (200, .arr [.obj [("error", .str ("TTS error: " ++ excMessage e))],
              .num 500])

/-- The per-language voice-name candidates added by `initialize_voices`
(`app.py` lines 75-104) beyond the language code itself. -/
def voiceFormats (lang : String) : List String :=
  if lang = "en-US" then ["english", "en-US-FastPitch", "english_us"]
  else if lang = "es-ES" then ["spanish", "es-ES-FastPitch", "spanish_es"]
  else if lang = "es-US" then ["spanish-us", "es-US-FastPitch", "spanish_us"]
  else if lang = "it-IT" then ["italian", "it-IT-FastPitch", "italian_it"]
  else if lang = "de-DE" then ["german", "de-DE-FastPitch", "german_de"]
  else if lang = "zh-CN" then ["chinese", "zh-CN-FastPitch", "chinese_cn"]
  else []

/-- The global `VOICES` dict as populated by `initialize_voices` on
startup (`app.py` line 107). -/
def VOICES : List (String × List String) :=
  ["en-US", "es-ES", "es-US", "it-IT", "de-DE", "zh-CN"].map
    (fun l => (l, l :: voiceFormats l))

/-- A `wave.open(...)` write performed by `/tts/synthesize` on success. -/
structure WavWrite where
  filename : String
  nchannels : Nat
  sampwidth : Nat
  framerate : Nat
  frames : Bytes
deriving Repr, DecidableEq

/-- Result of `/tts/synthesize`: status, JSON body, and WAV files written
under the temp directory. -/
structure SynthOut where
  status : Nat
  body : JVal
  wavWrites : List WavWrite

/-- `POST /tts/synthesize` (`app.py` lines 439-487).  `data` is
`request.json` (`none` for a null body, string-valued keys); `uuidHex` is
`uuid.uuid4().hex`.  Line 442 evaluates the global name `tts_available`,
which `app.py` never binds (it is a global of `riva_client.py` and is not
imported), so with the real name environment every request raises
`NameError` before any branch runs.  The rest of the translation follows
the source for a name environment that does bind it: the 503 branch, the
400 branch, voice selection from `VOICES`, the call to
`default_client.synthesize_speech`, the 500 branch on empty audio, and
the `wave.open` WAV write (`wave` is also unbound in `app.py`, raising
inside the `try`, which the `except` branch turns into
`tts_error_response`). -/
def synthesize_speech (names : List String) (tts_avail : Bool)
    (rpc : SynthReq → Except PyExc Bytes)
    (data : Option (List (String × String))) (uuidHex : String) :
    Except PyExc SynthOut :=
  if nameDefined names "tts_available" = false then
    .error (.nameError "tts_available")
  else if tts_avail = false then
    .ok ⟨503, .obj [("error", .str "TTS functionality not available")], []⟩
  else
    match data with
    | none => .ok ⟨400, .obj [("error", .str "No text provided")], []⟩
    | some d =>
      if d = [] then
        .ok ⟨400, .obj [("error", .str "No text provided")], []⟩
      else
        match alookup d "text" with
        | none => .ok ⟨400, .obj [("error", .str "No text provided")], []⟩
        | some text =>
          let language := (alookup d "language").getD "en-US"
          let voices := (alookup VOICES language).getD [language]
          let voice := (alookup d "voice").getD
            (match voices with | v :: _ => v | [] => language)
          match (RivaClient.synthesize_speech tts_avail rpc
                   text language (some voice) 22050).1 with
          | .error e =>
              .ok ⟨(tts_error_response e).1, (tts_error_response e).2, []⟩
          | .ok audioOpt =>
            match audioOpt with
            | none =>
                .ok ⟨500, .obj [("error", .str "Failed to synthesize speech")],
                     []⟩
            | some audio =>
              if audio = [] then
                .ok ⟨500, .obj [("error", .str "Failed to synthesize speech")],
                     []⟩
              else
                let filename := "tts_" ++ uuidHex ++ ".wav"
                if nameDefined names "wave" = false then
                  -- NameError raised inside the try block, caught below
                  .ok ⟨(tts_error_response (.nameError "wave")).1,
                       (tts_error_response (.nameError "wave")).2, []⟩
                else
                  .ok ⟨200,
                       .obj [("audio_file", .str filename),
                             ("text", .str text), ("voice", .str voice)],
                       [⟨filename, 1, 2, 22050, audio⟩]⟩

/-! ## Dictionary lemmas -/

theorem lookupSession_update (st : AppState) (sid x : String) (v : Session) :
    lookupSession (updateSession st sid v) x =
      if x = sid then (lookupSession st x).map (fun _ => v)
      else lookupSession st x := by
  induction st with
  | nil => simp [lookupSession, updateSession]
  | cons p rest ih =>
    obtain ⟨k, w⟩ := p
    by_cases hk : k = sid
    · subst hk
      by_cases hx : k = x
      · subst hx
        simp [updateSession, lookupSession]
      · have hxs : x ≠ k := fun h => hx h.symm
        simp [updateSession, lookupSession, hx, hxs, ih]
    · by_cases hx : k = x
      · subst hx
        have hxs : k ≠ sid := hk
        simp [updateSession, lookupSession, hxs]
      · simp [updateSession, lookupSession, hk, hx, ih]

theorem lookupSession_remove (st : AppState) (sid x : String) :
    lookupSession (removeSession st sid) x =
      if x = sid then none else lookupSession st x := by
  induction st with
  | nil => simp [lookupSession, removeSession]
  | cons p rest ih =>
    obtain ⟨k, w⟩ := p
    by_cases hk : k = sid
    · subst hk
      by_cases hx : x = k
      · subst hx
        simp [removeSession, lookupSession, ih]
      · have hkx : k ≠ x := fun h => hx h.symm
        simp [removeSession, lookupSession, hx, hkx, ih]
    · by_cases hx : k = x
      · subst hx
        simp [removeSession, lookupSession, hk, fun h => hk h]
      · simp [removeSession, lookupSession, hk, hx, ih]

theorem lookupSession_append (st1 st2 : AppState) (x : String) :
    lookupSession (st1 ++ st2) x =
      match lookupSession st1 x with
      | some s => some s
      | none => lookupSession st2 x := by
  induction st1 with
  | nil => simp [lookupSession]
  | cons p rest ih =>
    obtain ⟨k, w⟩ := p
    by_cases hk : k = x <;> simp [lookupSession, hk, ih]

theorem lookupSession_insert_self (st : AppState) (sid : String) (v : Session) :
    lookupSession (insertSession st sid v) sid = some v := by
  unfold insertSession
  by_cases h : (lookupSession st sid).isSome
  · rw [if_pos h, lookupSession_update]
    obtain ⟨s, hs⟩ := Option.isSome_iff_exists.mp h
    simp [hs]
  · rw [if_neg h, lookupSession_append]
    have hn : lookupSession st sid = none := Option.not_isSome_iff_eq_none.mp h
    simp [hn, lookupSession]

theorem lookupSession_insert_ne (st : AppState) (sid x : String) (v : Session)
    (h : x ≠ sid) :
    lookupSession (insertSession st sid v) x = lookupSession st x := by
  unfold insertSession
  by_cases hs : (lookupSession st sid).isSome
  · rw [if_pos hs, lookupSession_update, if_neg h]
  · rw [if_neg hs, lookupSession_append]
    have hne : sid ≠ x := fun hh => h hh.symm
    cases hl : lookupSession st x with
    | some s => simp
    | none => simp [lookupSession, hne]

theorem lookupSession_update_isSome (st : AppState) (sid x : String)
    (v : Session) (h : (lookupSession st x).isSome) :
    (lookupSession (updateSession st sid v) x).isSome := by
  rw [lookupSession_update]
  split <;> simp_all

theorem lookupSession_insert_isSome (st : AppState) (sid x : String)
    (v : Session) (h : (lookupSession st x).isSome) :
    (lookupSession (insertSession st sid v) x).isSome := by
  by_cases hx : x = sid
  · subst hx; simp [lookupSession_insert_self]
  · rw [lookupSession_insert_ne st sid x v hx]; exact h

/-! ## The transcription value reported by `/stream_audio` -/

theorem intercalate_single (t : String) : String.intercalate " " [t] = t := by
  simp [String.intercalate, String.intercalate.go]

/-- The transcription value claim C1 attributes to `/stream_audio`,
written from the claim text: the space-separated join of the transcripts
of all collected results marked `is_final`; when no collected result is
final and the results list is non-empty, the transcript of the most
recently collected result; and the empty string when no results have been
collected. -/
def claimedLatestTranscription (rs : List RivaResult) : String :=
  if (rs.filter (fun r => r.is_final)) ≠ [] then
    String.intercalate " "
      ((rs.filter (fun r => r.is_final)).map (fun r => r.transcript))
  else
    match rs.getLast? with
    | some r => r.transcript
    | none => ""

/-- The string computed by `app.py` lines 302-309 agrees with the
claim-side description. -/
theorem code_transcription_eq_claimed (rs : List RivaResult) :
    (let latest := finalTranscripts rs
     let latest := if latest = [] then
         match rs.getLast? with
         | some r => [r.transcript]
         | none => []
       else latest
     if latest = [] then "" else String.intercalate " " latest) =
    claimedLatestTranscription rs := by
  by_cases hf : finalTranscripts rs = []
  · have hfil : rs.filter (fun r => r.is_final) = [] := by
      simpa [finalTranscripts] using hf
    cases hl : rs.getLast? with
    | some r => simp [hf, hl, claimedLatestTranscription, hfil,
                      intercalate_single]
    | none => simp [hf, hl, claimedLatestTranscription, hfil]
  · have hfil : ¬ rs.filter (fun r => r.is_final) = [] := by
      intro hc
      exact hf (by simp [finalTranscripts, hc])
    simp [hf, claimedLatestTranscription, hfil, finalTranscripts]

/-! ## Concrete fixtures used by witnesses -/

def exResultA : RivaResult := ⟨"hello", false⟩

def exResultB : RivaResult := ⟨"hello world", true⟩

def exSession : Session :=
  { created_at := 5, audio_queue := [], results_queue := [exResultB],
    results := [exResultA], complete := false, sample_rate := 16000,
    thread := some 1 }

def exState : AppState := [("abc", exSession)]

/-! ## Claims about `/stream_audio` -/

/-- C1: for every POST to `/stream_audio/<session_id>` with a session id
present in `active_sessions`, the handler answers HTTP 200 with JSON
whose `transcription` field is the latest known transcript of the results
collected so far (the drained queue included): the space-separated join
of the final transcripts, else the most recently collected transcript,
else the empty string. -/
theorem stream_audio_transcription_latest (st : AppState) (sid : String)
    (body : Bytes) (s : Session) (h : lookupSession st sid = some s) :
    (stream_audio st sid body).status = 200 ∧
    jsonField (stream_audio st sid body).body "transcription" =
      some (.str (claimedLatestTranscription (s.results ++ s.results_queue))) := by
  have hres :
      (if body = [] then s
       else { s with audio_queue := s.audio_queue ++ [some body] }).results
        ++ (if body = [] then s
            else { s with audio_queue := s.audio_queue ++ [some body]
                 }).results_queue
      = s.results ++ s.results_queue := by
    split <;> rfl
  simp only [stream_audio, h]
  refine ⟨by trivial, ?_⟩
  simp only [jsonField, drainResults, List.find?, hres]
  rw [← code_transcription_eq_claimed (s.results ++ s.results_queue)]
  simp

theorem stream_audio_transcription_latest_witness :
    lookupSession exState "abc" = some exSession ∧
    ((stream_audio exState "abc" []).status = 200 ∧
     jsonField (stream_audio exState "abc" []).body "transcription" =
       some (.str (claimedLatestTranscription
         (exSession.results ++ exSession.results_queue)))) :=
  ⟨rfl, stream_audio_transcription_latest exState "abc" [] exSession rfl⟩

/-- C8: a POST to `/stream_audio/<session_id>` with an empty body is
treated as result polling: nothing is put on the audio queue of the session,
the only change to the session is that the results queue is drained into
the `results` list, and every other session field — and every other
session — is unchanged. -/
theorem stream_audio_polling_frame (st : AppState) (sid : String)
    (s : Session) (x : String) (h : lookupSession st sid = some s)
    (hx : x ≠ sid) :
    lookupSession (stream_audio st sid []).state sid = some (drainResults s) ∧
    (drainResults s).audio_queue = s.audio_queue ∧
    (drainResults s).complete = s.complete ∧
    (drainResults s).sample_rate = s.sample_rate ∧
    (drainResults s).created_at = s.created_at ∧
    (drainResults s).thread = s.thread ∧
    (drainResults s).results = s.results ++ s.results_queue ∧
    (drainResults s).results_queue = [] ∧
    lookupSession (stream_audio st sid []).state x = lookupSession st x := by
  have hstate : (stream_audio st sid []).state =
      updateSession st sid (drainResults s) := by
    simp [stream_audio, h]
  refine ⟨?_, rfl, rfl, rfl, rfl, rfl, rfl, rfl, ?_⟩
  · rw [hstate, lookupSession_update]
    simp [h]
  · rw [hstate, lookupSession_update, if_neg hx]

theorem stream_audio_polling_frame_witness :
    (lookupSession exState "abc" = some exSession ∧ "zzz" ≠ "abc") ∧
    (lookupSession (stream_audio exState "abc" []).state "abc" =
       some (drainResults exSession) ∧
     (drainResults exSession).audio_queue = exSession.audio_queue ∧
     (drainResults exSession).complete = exSession.complete ∧
     (drainResults exSession).sample_rate = exSession.sample_rate ∧
     (drainResults exSession).created_at = exSession.created_at ∧
     (drainResults exSession).thread = exSession.thread ∧
     (drainResults exSession).results =
       exSession.results ++ exSession.results_queue ∧
     (drainResults exSession).results_queue = [] ∧
     lookupSession (stream_audio exState "abc" []).state "zzz" =
       lookupSession exState "zzz") :=
  ⟨⟨rfl, by decide⟩,
   stream_audio_polling_frame exState "abc" exSession "zzz" rfl (by decide)⟩

/-- C9: a POST to `/stream_audio/<session_id>` or `/stream_stop/<session_id>`
with a session id not in `active_sessions` answers HTTP 400 with exactly
`{"error": "Invalid session ID"}`, leaves the whole dict unchanged and
spawns nothing. -/
theorem invalid_session_rejected (st : AppState) (sid : String)
    (body : Bytes) (h : lookupSession st sid = none) :
    ((stream_audio st sid body).status = 400 ∧
     (stream_audio st sid body).body =
       .obj [("error", .str "Invalid session ID")] ∧
     (stream_audio st sid body).state = st ∧
     (stream_audio st sid body).effects = []) ∧
    ((stream_stop st sid).status = 400 ∧
     (stream_stop st sid).body =
       .obj [("error", .str "Invalid session ID")] ∧
     (stream_stop st sid).state = st ∧
     (stream_stop st sid).effects = []) := by
  simp [stream_audio, stream_stop, h]

theorem invalid_session_rejected_witness :
    lookupSession exState "nope" = none ∧
    (((stream_audio exState "nope" [7]).status = 400 ∧
      (stream_audio exState "nope" [7]).body =
        .obj [("error", .str "Invalid session ID")] ∧
      (stream_audio exState "nope" [7]).state = exState ∧
      (stream_audio exState "nope" [7]).effects = []) ∧
     ((stream_stop exState "nope").status = 400 ∧
      (stream_stop exState "nope").body =
        .obj [("error", .str "Invalid session ID")] ∧
      (stream_stop exState "nope").state = exState ∧
      (stream_stop exState "nope").effects = [])) :=
  ⟨rfl, invalid_session_rejected exState "nope" [7] rfl⟩

/-! ## Session lifecycle claims -/

def exState2 : AppState := [("abc", exSession), ("xyz", exSession)]

/-- C4: a successful `/stream_stop` ends the session lifecycle through
the fixed 60-second timer only: the handler spawns exactly the cleanup
thread, whose sleep is 60 seconds and which then deletes the session
entry (if still present) while leaving every other entry alone; and none
of the other code paths that touch `active_sessions` (`/stream_start`,
`/stream_audio`, `/stream_stop` itself, the `finally` block of the worker
thread) ever removes an entry. -/
theorem stream_stop_cleanup_only_removal (st st2 : AppState)
    (sid sid2 x sidp : String) (s : Session) (now tid : Nat)
    (rateArg : Option Nat) (body : Bytes)
    (h : lookupSession st sid = some s) (hne : x ≠ sid2)
    (hx : (lookupSession st2 x).isSome) :
    (stream_stop st sid).effects =
      [.spawnThread false (.cleanupWorker sid)] ∧
    cleanupDelaySeconds = 60 ∧
    lookupSession (cleanup_session st2 sid2) sid2 = none ∧
    lookupSession (cleanup_session st2 sid2) x = lookupSession st2 x ∧
    (lookupSession (stream_start st2 sidp now rateArg tid).state x).isSome ∧
    (lookupSession (stream_audio st2 sidp body).state x).isSome ∧
    (lookupSession (stream_stop st2 sidp).state x).isSome ∧
    (lookupSession (session_thread_finalize st2 sidp) x).isSome := by
  refine ⟨by simp [stream_stop, h], rfl, ?_, ?_, ?_, ?_, ?_, ?_⟩
  · unfold cleanup_session
    by_cases hs : (lookupSession st2 sid2).isSome
    · rw [if_pos hs, lookupSession_remove, if_pos rfl]
    · rw [if_neg hs]
      exact Option.not_isSome_iff_eq_none.mp hs
  · unfold cleanup_session
    by_cases hs : (lookupSession st2 sid2).isSome
    · rw [if_pos hs, lookupSession_remove, if_neg hne]
    · rw [if_neg hs]
  · simp only [stream_start]
    exact lookupSession_update_isSome _ _ _ _
      (lookupSession_insert_isSome _ _ _ _ hx)
  · cases hl : lookupSession st2 sidp with
    | none => simpa [stream_audio, hl] using hx
    | some sq =>
      simp only [stream_audio, hl]
      exact lookupSession_update_isSome _ _ _ _ hx
  · cases hl : lookupSession st2 sidp with
    | none => simpa [stream_stop, hl] using hx
    | some sq =>
      simp only [stream_stop, hl]
      exact lookupSession_update_isSome _ _ _ _ hx
  · cases hl : lookupSession st2 sidp with
    | none => simpa [session_thread_finalize, hl] using hx
    | some sq =>
      simp only [session_thread_finalize, hl]
      exact lookupSession_update_isSome _ _ _ _ hx

theorem stream_stop_cleanup_only_removal_witness :
    (lookupSession exState "abc" = some exSession ∧ "xyz" ≠ "abc" ∧
     (lookupSession exState2 "xyz").isSome) ∧
    ((stream_stop exState "abc").effects =
       [.spawnThread false (.cleanupWorker "abc")] ∧
     cleanupDelaySeconds = 60 ∧
     lookupSession (cleanup_session exState2 "abc") "abc" = none ∧
     lookupSession (cleanup_session exState2 "abc") "xyz" =
       lookupSession exState2 "xyz" ∧
     (lookupSession (stream_start exState2 "fresh" 9 none 2).state
        "xyz").isSome ∧
     (lookupSession (stream_audio exState2 "abc" [1]).state "xyz").isSome ∧
     (lookupSession (stream_stop exState2 "abc").state "xyz").isSome ∧
     (lookupSession (session_thread_finalize exState2 "abc") "xyz").isSome) :=
  ⟨⟨rfl, by decide, by decide⟩,
   stream_stop_cleanup_only_removal exState exState2 "abc" "abc" "xyz" "fresh"
     exSession 9 2 none [1] rfl (by decide) (by decide)⟩

/-- C5: `/stream_start` keys a new entry by the freshly generated session
id and establishes exactly the shape `created_at`, `audio_queue`,
`results_queue`, `results` (empty), `complete` (`False`), `sample_rate`
and (once the worker is started) `thread`; other entries are untouched.
`/stream_audio` and `/stream_stop` keep the entry a record of that same
shape: in particular the optional `thread` key is neither added nor
removed, and `created_at`/`sample_rate` keep their values. -/
theorem stream_start_session_shape (st st2 : AppState) (sid sid2 sidq : String)
    (now tid : Nat) (rateArg : Option Nat) (body : Bytes) (sq : Session)
    (_hfresh : lookupSession st sid = none) (hne : sid2 ≠ sid)
    (hq : lookupSession st2 sidq = some sq) :
    lookupSession (stream_start st sid now rateArg tid).state sid =
      some { created_at := now, audio_queue := [], results_queue := [],
             results := [], complete := false,
             sample_rate := rateArg.getD 16000, thread := some tid } ∧
    lookupSession (stream_start st sid now rateArg tid).state sid2 =
      lookupSession st sid2 ∧
    (lookupSession (stream_audio st2 sidq body).state sidq =
       some (drainResults (if body = [] then sq
         else { sq with audio_queue := sq.audio_queue ++ [some body] })) ∧
     (drainResults (if body = [] then sq
         else { sq with audio_queue := sq.audio_queue ++ [some body]
              })).thread = sq.thread ∧
     (drainResults (if body = [] then sq
         else { sq with audio_queue := sq.audio_queue ++ [some body]
              })).created_at = sq.created_at ∧
     (drainResults (if body = [] then sq
         else { sq with audio_queue := sq.audio_queue ++ [some body]
              })).sample_rate = sq.sample_rate) ∧
    (lookupSession (stream_stop st2 sidq).state sidq =
       some { drainResults { sq with audio_queue := sq.audio_queue ++ [none] }
                with complete := true } ∧
     ({ drainResults { sq with audio_queue := sq.audio_queue ++ [none] }
          with complete := true } : Session).thread = sq.thread ∧
     ({ drainResults { sq with audio_queue := sq.audio_queue ++ [none] }
          with complete := true } : Session).created_at = sq.created_at ∧
     ({ drainResults { sq with audio_queue := sq.audio_queue ++ [none] }
          with complete := true } : Session).sample_rate = sq.sample_rate) := by
  refine ⟨?_, ?_, ⟨?_, ?_, ?_, ?_⟩, ⟨?_, rfl, rfl, rfl⟩⟩
  · simp only [stream_start]
    rw [lookupSession_update, if_pos rfl, lookupSession_insert_self]
    rfl
  · simp only [stream_start]
    rw [lookupSession_update, if_neg hne, lookupSession_insert_ne _ _ _ _ hne]
  · simp only [stream_audio, hq]
    rw [lookupSession_update, if_pos rfl, hq]
    rfl
  · split <;> rfl
  · split <;> rfl
  · split <;> rfl
  · simp only [stream_stop, hq]
    rw [lookupSession_update, if_pos rfl, hq]
    rfl

theorem stream_start_session_shape_witness :
    (lookupSession exState "fresh" = none ∧ "other" ≠ "fresh" ∧
     lookupSession exState "abc" = some exSession) ∧
    (lookupSession (stream_start exState "fresh" 9 none 2).state "fresh" =
       some { created_at := 9, audio_queue := [], results_queue := [],
              results := [], complete := false,
              sample_rate := (none : Option Nat).getD 16000,
              thread := some 2 } ∧
     lookupSession (stream_start exState "fresh" 9 none 2).state "other" =
       lookupSession exState "other" ∧
     (lookupSession (stream_audio exState "abc" [1]).state "abc" =
        some (drainResults (if ([1] : Bytes) = [] then exSession
          else { exSession with
                 audio_queue := exSession.audio_queue ++ [some [1]] })) ∧
      (drainResults (if ([1] : Bytes) = [] then exSession
          else { exSession with
                 audio_queue := exSession.audio_queue ++ [some [1]]
               })).thread = exSession.thread ∧
      (drainResults (if ([1] : Bytes) = [] then exSession
          else { exSession with
                 audio_queue := exSession.audio_queue ++ [some [1]]
               })).created_at = exSession.created_at ∧
      (drainResults (if ([1] : Bytes) = [] then exSession
          else { exSession with
                 audio_queue := exSession.audio_queue ++ [some [1]]
               })).sample_rate = exSession.sample_rate) ∧
     (lookupSession (stream_stop exState "abc").state "abc" =
        some { drainResults { exSession with
                 audio_queue := exSession.audio_queue ++ [none] }
                 with complete := true } ∧
      ({ drainResults { exSession with
           audio_queue := exSession.audio_queue ++ [none] }
           with complete := true } : Session).thread = exSession.thread ∧
      ({ drainResults { exSession with
           audio_queue := exSession.audio_queue ++ [none] }
           with complete := true } : Session).created_at =
        exSession.created_at ∧
      ({ drainResults { exSession with
           audio_queue := exSession.audio_queue ++ [none] }
           with complete := true } : Session).sample_rate =
        exSession.sample_rate)) :=
  ⟨⟨rfl, by decide, rfl⟩,
   stream_start_session_shape exState exState "fresh" "other" "abc" 9 2 none
     [1] exSession rfl (by decide) rfl⟩

/-- C6: `/stream_start` spawns exactly one daemon worker thread for the
session and a successful `/stream_stop` spawns exactly one (non-daemon)
cleanup thread; `/stream_audio` spawns none, and no handler ever takes a
lock or other synchronization primitive around the shared dict. -/
theorem handlers_thread_spawn_no_locks (st st2 st3 : AppState)
    (sid sid2 sid3 : String) (now tid : Nat) (rateArg : Option Nat)
    (body : Bytes) (s : Session) (h : lookupSession st2 sid2 = some s) :
    (stream_start st sid now rateArg tid).effects =
      [.spawnThread true (.sessionWorker sid)] ∧
    (stream_stop st2 sid2).effects =
      [.spawnThread false (.cleanupWorker sid2)] ∧
    (stream_audio st3 sid3 body).effects = [] ∧
    (stream_start st sid now rateArg tid).effects.all
      (fun e => !e.isLock) = true ∧
    (stream_stop st2 sid2).effects.all (fun e => !e.isLock) = true ∧
    (stream_audio st3 sid3 body).effects.all (fun e => !e.isLock) = true := by
  have haudio : (stream_audio st3 sid3 body).effects = [] := by
    cases hl : lookupSession st3 sid3 <;> simp [stream_audio, hl]
  refine ⟨rfl, by simp [stream_stop, h], haudio, rfl, ?_, ?_⟩
  · simp [stream_stop, h, Effect.isLock]
  · simp [haudio]

theorem handlers_thread_spawn_no_locks_witness :
    lookupSession exState "abc" = some exSession ∧
    ((stream_start exState "fresh" 9 none 2).effects =
       [.spawnThread true (.sessionWorker "fresh")] ∧
     (stream_stop exState "abc").effects =
       [.spawnThread false (.cleanupWorker "abc")] ∧
     (stream_audio exState "abc" [1]).effects = [] ∧
     (stream_start exState "fresh" 9 none 2).effects.all
       (fun e => !e.isLock) = true ∧
     (stream_stop exState "abc").effects.all (fun e => !e.isLock) = true ∧
     (stream_audio exState "abc" [1]).effects.all
       (fun e => !e.isLock) = true) :=
  ⟨rfl, handlers_thread_spawn_no_locks exState exState exState "fresh" "abc"
    "abc" 9 2 none [1] exSession rfl⟩

/-! ## Claims about `/transcribe` and the TTS path -/

def rpcStreamOk : List Bytes → Except PyExc (List RivaResult) :=
  fun _ => .ok [⟨"hello", true⟩]

/-- C2 (evaluation at the failing input): `app.py` line 10 imports only
`RivaClient` from the `riva_client` module and never binds the name
`riva_client`, so a POST to `/transcribe` that does carry an `audio` file
raises `NameError` at line 211 instead of proxying to
`StreamingRecognize`; only the missing-file branch behaves as claimed. -/
theorem transcribe_riva_client_undefined :
    transcribe appGlobalNames true rpcStreamOk [[1, 2, 3]] =
      .error (.nameError "riva_client") ∧
    transcribe appGlobalNames false rpcStreamOk [[1, 2, 3]] =
      .ok (400, .obj [("error", .str "No audio file uploaded")]) ∧
    nameDefined appGlobalNames "riva_client" = false :=
  ⟨rfl, rfl, by decide⟩

/-- C3 (evaluation at the failing input): the `except` branch of
`/tts/synthesize` (`app.py` line 487) calls
`jsonify({"error": ...}, 500)` with the 500 as a second positional
argument, so the HTTP status is the default 200 and the body is a
two-element JSON array carrying the 500 — not a 500 response with an
error object. -/
theorem synthesize_error_branch_status200 :
    (tts_error_response (.nameError "wave")).1 = 200 ∧
    ¬ (tts_error_response (.nameError "wave")).1 = 500 ∧
    (tts_error_response (.nameError "wave")).2 =
      .arr [.obj [("error",
        .str ("TTS error: " ++ excMessage (.nameError "wave")))],
        .num 500] :=
  ⟨rfl, by decide, rfl⟩

def rpcSynthOk : SynthReq → Except PyExc Bytes := fun _ => .ok [1, 2, 3]

def rpcSynthFail : SynthReq → Except PyExc Bytes :=
  fun _ => .error (.other "boom")

/-- C7 (evaluation at the failing input): `app.py` never binds
`tts_available` (it is a global of `riva_client.py`, not imported by the
`from riva_client import RivaClient` on line 10), so every POST to
`/tts/synthesize` raises `NameError` at line 442 before any branch runs;
no WAV file is written and no `audio_file` JSON is ever produced.  The
name `wave` used at line 473 is unbound as well. -/
theorem synthesize_tts_available_undefined :
    synthesize_speech appGlobalNames true rpcSynthOk
      (some [("text", "hello")]) "deadbeef" =
      .error (.nameError "tts_available") ∧
    nameDefined appGlobalNames "tts_available" = false ∧
    nameDefined appGlobalNames "wave" = false :=
  ⟨rfl, by decide, by decide⟩

/-- Whether the outer exception layer carries a normal return. -/
def exceptOk : Except PyExc (Option Bytes) → Bool
  | .ok _ => true
  | .error _ => false

/-- C10: `RivaClient.synthesize_speech` never raises: on every input —
any availability flag, any RPC behaviour and any `voice_name`, the
default `None` and `voice_name = language_code` included — the result is
a normal return of either the RPC audio or `None` (first two conjuncts,
over the unconstrained `vnAny`).  When the TTS modules are unavailable it
returns `None` immediately without any RPC.  When the first RPC succeeds,
that audio is returned after exactly one request.  When the effective
voice name differs from the language code and the first RPC fails,
exactly one retry with `voice_name = language_code` is issued, whose
audio is returned on success and `None` otherwise; with the default
`voice_name = None` (effective voice = language code) a failing RPC is
not retried and `None` is returned after the single request. -/
theorem riva_synthesize_never_raises
    (rpcAny rpcF rpcO : SynthReq → Except PyExc Bytes) (tts_avail : Bool)
    (text lc : String) (vnAny vn : Option String) (sr : Nat) (e e2 : PyExc)
    (audio : Bytes)
    (hvn : vn.getD lc ≠ lc)
    (hfail : rpcF ⟨text, lc, sr, vn.getD lc⟩ = .error e)
    (hfail2 : rpcF ⟨text, lc, sr, lc⟩ = .error e2)
    (hok : rpcO ⟨text, lc, sr, vn.getD lc⟩ = .ok audio) :
    exceptOk (RivaClient.synthesize_speech tts_avail rpcAny
      text lc vnAny sr).1 = true ∧
    RivaClient.synthesize_speech false rpcAny text lc vnAny sr =
      (.ok none, []) ∧
    RivaClient.synthesize_speech true rpcO text lc vn sr =
      (.ok (some audio), [⟨text, lc, sr, vn.getD lc⟩]) ∧
    RivaClient.synthesize_speech true rpcF text lc vn sr =
      (.ok (match rpcF ⟨text, lc, sr, lc⟩ with
            | .ok a => some a
            | .error _ => none),
       [⟨text, lc, sr, vn.getD lc⟩, ⟨text, lc, sr, lc⟩]) ∧
    RivaClient.synthesize_speech true rpcF text lc none sr =
      (.ok none, [⟨text, lc, sr, lc⟩]) := by
  refine ⟨?_, by simp [RivaClient.synthesize_speech], ?_, ?_, ?_⟩
  · unfold RivaClient.synthesize_speech
    by_cases ha : tts_avail = false
    · simp [ha, exceptOk]
    · simp only [ha, if_false]
      cases rpcAny ⟨text, lc, sr, vnAny.getD lc⟩ with
      | ok a => simp [exceptOk]
      | error e1 =>
        by_cases hv : vnAny.getD lc ≠ lc
        · cases rpcAny ⟨text, lc, sr, lc⟩ with
          | ok a => simp [exceptOk, hv]
          | error e3 => simp [exceptOk, hv]
        · simp [hv, exceptOk]
  · simp [RivaClient.synthesize_speech, hok]
  · simp only [RivaClient.synthesize_speech, hfail, hvn]
    cases h2 : rpcF ⟨text, lc, sr, lc⟩ <;> simp [h2, hvn]
  · simp [RivaClient.synthesize_speech, hfail2]

theorem riva_synthesize_never_raises_witness :
    ((some "English-US-Female-1" : Option String).getD "en-US" ≠ "en-US" ∧
     rpcSynthFail ⟨"hi", "en-US", 22050,
       (some "English-US-Female-1" : Option String).getD "en-US"⟩ =
       .error (.other "boom") ∧
     rpcSynthFail ⟨"hi", "en-US", 22050, "en-US"⟩ = .error (.other "boom") ∧
     rpcSynthOk ⟨"hi", "en-US", 22050,
       (some "English-US-Female-1" : Option String).getD "en-US"⟩ =
       .ok [1, 2, 3]) ∧
    (exceptOk (RivaClient.synthesize_speech true rpcSynthOk "hi" "en-US"
       (none : Option String) 22050).1 = true ∧
     RivaClient.synthesize_speech false rpcSynthOk "hi" "en-US"
       (none : Option String) 22050 = (.ok none, []) ∧
     RivaClient.synthesize_speech true rpcSynthOk "hi" "en-US"
       (some "English-US-Female-1") 22050 =
       (.ok (some [1, 2, 3]),
        [⟨"hi", "en-US", 22050,
          (some "English-US-Female-1" : Option String).getD "en-US"⟩]) ∧
     RivaClient.synthesize_speech true rpcSynthFail "hi" "en-US"
       (some "English-US-Female-1") 22050 =
       (.ok (match rpcSynthFail ⟨"hi", "en-US", 22050, "en-US"⟩ with
             | .ok a => some a
             | .error _ => none),
        [⟨"hi", "en-US", 22050,
          (some "English-US-Female-1" : Option String).getD "en-US"⟩,
         ⟨"hi", "en-US", 22050, "en-US"⟩]) ∧
     RivaClient.synthesize_speech true rpcSynthFail "hi" "en-US"
       (none : Option String) 22050 =
       (.ok none, [⟨"hi", "en-US", 22050, "en-US"⟩])) :=
  ⟨⟨by decide, rfl, rfl, rfl⟩,
   riva_synthesize_never_raises rpcSynthOk rpcSynthFail rpcSynthOk true
     "hi" "en-US" (none : Option String) (some "English-US-Female-1") 22050
     (.other "boom") (.other "boom") [1, 2, 3] (by decide) rfl rfl rfl⟩
